import Mathlib

/-!
# Verification of the remote-desktop transport core of `file-sharing-app`

Shallow embedding of the wire protocol (`src/shared/protocol.py`), the
connection receive loop and send path (`src/shared/network.py`), the
frame-diff codec (`src/server/compression.py`), the capture rate gate
(`src/server/screen_capturer.py`) and the client mouse-event paths
(`src/client/input_sender.py`, `src/client/client_main.py`), together with
theorems settling the specification's testable properties.

External library calls (`json.dumps`/`json.loads`, `zlib.compress`/
`zlib.decompress`) are not part of the repository; they are modelled as
function parameters, with their documented lossless round-trip property
taken as a hypothesis where a claim relies on it.
-/

namespace RemoteDesktop

/-- A byte is modelled as a natural number (0..255 on the wire). -/
abbrev Byte := Nat

/-- Model of the receive side of a stream socket: the chunks that successive
`recv` calls will deliver, in order.  When `chunks` is exhausted the stream is
closed and every further `recv` returns the empty byte string, exactly as a
Python socket does. -/
structure Sock where
  chunks : List (List Byte)
deriving DecidableEq

/-- `sock.recv(n)`: delivers at most `n` bytes; delivers the empty byte string
exactly when the stream is closed (no chunks left).  A pending chunk larger
than `n` is split and its remainder stays queued. -/
def recv (s : Sock) (n : Nat) : List Byte × Sock :=
  match s.chunks with
  | [] => ([], ⟨[]⟩)
  | c :: rest =>
    if c.length ≤ n then (c, ⟨rest⟩)
    else (c.take n, ⟨c.drop n :: rest⟩)

/-- The closed message-kind enum of `src/shared/protocol.py` (`MessageType`). -/
inductive MessageType where
  | screen_data
  | mouse_event
  | keyboard_event
  | clipboard_data
  | file_transfer
  | auth_request
  | auth_response
  | disconnect
deriving DecidableEq

/-- The numeric wire value of each message kind (`MessageType.value`). -/
def MessageType.value : MessageType → Nat
  | .screen_data => 1
  | .mouse_event => 2
  | .keyboard_event => 3
  | .clipboard_data => 4
  | .file_transfer => 5
  | .auth_request => 6
  | .auth_response => 7
  | .disconnect => 8

/-- `MessageType(v)` in Python: `some` on 1..8, `none` models the
`ValueError` raised on any other numeric value. -/
def MessageType.ofValue (v : Nat) : Option MessageType :=
  if v = 1 then some .screen_data
  else if v = 2 then some .mouse_event
  else if v = 3 then some .keyboard_event
  else if v = 4 then some .clipboard_data
  else if v = 5 then some .file_transfer
  else if v = 6 then some .auth_request
  else if v = 7 then some .auth_response
  else if v = 8 then some .disconnect
  else none

/-- Big-endian 4-byte encoding of `v`, as produced by `struct.pack('!I', v)`
for `v < 2^32`. -/
def be32 (v : Nat) : List Byte :=
  [v / 2 ^ 24 % 256, v / 2 ^ 16 % 256, v / 2 ^ 8 % 256, v % 256]

/-- Big-endian 32-bit decode of a 4-byte string, as `struct.unpack('!I', b)`. -/
def unbe32 (bs : List Byte) : Nat :=
  match bs with
  | [a, b, c, d] => ((a * 256 + b) * 256 + c) * 256 + d
  | _ => 0

/-- The wire frame `pack('!II', v, len(payload)) ++ payload`. -/
def frameBytes (v : Nat) (payload : List Byte) : List Byte :=
  be32 v ++ be32 payload.length ++ payload

/-- `create_message(msg_type, data)` from `src/shared/protocol.py`, with the
external `json.dumps` passed as the serializer `dumps`.  `struct.pack('!II',…)`
raises (modelled as `none`) when the serialized payload length does not fit an
unsigned 32-bit field. -/
def create_message (dumps : α → List Byte) (msg_type : MessageType) (data : α) :
    Option (List Byte) :=
  if (dumps data).length < 2 ^ 32 then
    some (frameBytes msg_type.value (dumps data))
  else none

/-- Exceptions that can escape `read_message`. -/
inductive ReadError where
  | unknownKind (v : Nat)
  | badPayload
deriving DecidableEq

/-- Outcome of one `read_message` call: `eos` is the `(None, None)` return,
`msg` a decoded message, `err` an escaped exception. -/
inductive ReadResult (α : Type) where
  | eos
  | msg (msg_type : MessageType) (data : α)
  | err (e : ReadError)
deriving DecidableEq

/-- The `while len(data) < length` retry loop of `read_message`, fuelled:
`none` means the loop has not terminated within `fuel` iterations. -/
def recvLoop : Nat → Sock → List Byte → Nat → Option (List Byte × Sock)
  | 0, _, _, _ => none
  | fuel + 1, s, data, length =>
    if data.length < length then
      let r := recv s (length - data.length)
      recvLoop fuel r.2 (data ++ r.1) length
    else some (data, s)

/-- `read_message(sock)` from `src/shared/protocol.py`, with the external
`json.loads` passed as `loads` (`none` models a raised serialization error)
and the payload retry loop fuelled: a `none` result means that loop did not
terminate within the given fuel. -/
def read_message (loads : List Byte → Option α) (fuel : Nat) (s : Sock) :
    Option (ReadResult α × Sock) :=
  let hr := recv s 8
  if hr.1.length ≠ 8 then some (.eos, hr.2)
  else
    let v := unbe32 (hr.1.take 4)
    let length := unbe32 (hr.1.drop 4)
    let pr := recv hr.2 length
    match recvLoop fuel pr.2 pr.1 length with
    | none => none
    | some (data, s3) =>
      match MessageType.ofValue v with
      | none => some (.err (.unknownKind v), s3)
      | some mt =>
        match loads data with
        | none => some (.err .badPayload, s3)
        | some d => some (.msg mt d, s3)

/-- A `loads` standing for the identity serialization (payloads are byte
strings), used to run the model on concrete inputs. -/
def idLoads (bs : List Byte) : Option (List Byte) := some bs

/-- Sanity check of the model: a complete mouse-event frame decodes. -/
lemma read_message_sample :
    read_message idLoads 3 ⟨[[0, 0, 0, 2, 0, 0, 0, 1, 65]]⟩ =
      some (.msg .mouse_event [65], ⟨[]⟩) := by decide

/-- Sanity check of the model: kind 9 raises, a closed stream yields eos. -/
lemma read_message_sample_err :
    read_message idLoads 3 ⟨[[0, 0, 0, 9, 0, 0, 0, 1, 65]]⟩ =
        some (.err (.unknownKind 9), ⟨[]⟩) ∧
      read_message idLoads 3 ⟨[]⟩ = some (.eos, (⟨[]⟩ : Sock)) := by
  constructor
  · decide
  · decide

lemma MessageType.ofValue_value (t : MessageType) :
    MessageType.ofValue t.value = some t := by
  cases t <;> rfl

lemma MessageType.value_lt (t : MessageType) : t.value < 2 ^ 32 := by
  cases t <;> decide

lemma unbe32_be32 (v : Nat) (hv : v < 2 ^ 32) : unbe32 (be32 v) = v := by
  simp only [be32, unbe32]
  omega

lemma frame_take (v : Nat) (p : List Byte) :
    (frameBytes v p).take 8 = be32 v ++ be32 p.length := by
  simp [frameBytes, be32]

lemma frame_drop (v : Nat) (p : List Byte) :
    (frameBytes v p).drop 8 = p := by
  simp [frameBytes, be32]

lemma frame_length (v : Nat) (p : List Byte) :
    (frameBytes v p).length = 8 + p.length := by
  simp [frameBytes, be32]
  omega

lemma header_take (a b : Nat) : (be32 a ++ be32 b).take 4 = be32 a := by
  simp [be32]

lemma header_drop (a b : Nat) : (be32 a ++ be32 b).drop 4 = be32 b := by
  simp [be32]

lemma recv_single_ge (c : List Byte) (n : Nat) (h : c.length ≤ n) :
    recv ⟨[c]⟩ n = (c, ⟨[]⟩) := by
  simp [recv, h]

lemma recv_single_lt (c : List Byte) (n : Nat) (h : n < c.length) :
    recv ⟨[c]⟩ n = (c.take n, ⟨[c.drop n]⟩) := by
  simp only [recv]
  rw [if_neg (by omega)]

/-- Reading a single well-formed frame, delivered by the stream in one chunk,
fully consumes it; the outcome depends only on the kind check and on `loads`. -/
lemma read_frame (loads : List Byte → Option α) (v : Nat) (p : List Byte) (fuel : Nat)
    (hv : v < 2 ^ 32) (hp : p.length < 2 ^ 32) :
    read_message loads (fuel + 1) ⟨[frameBytes v p]⟩ =
      some ((match MessageType.ofValue v with
        | none => ReadResult.err (.unknownKind v)
        | some mt =>
          match loads p with
          | none => ReadResult.err .badPayload
          | some d => ReadResult.msg mt d), ⟨[]⟩) := by
  have hb : unbe32 (be32 v) = v := unbe32_be32 v hv
  have hbl : unbe32 (be32 p.length) = p.length := unbe32_be32 _ hp
  rcases p with _ | ⟨x, xs⟩
  · have hfn : frameBytes v [] = be32 v ++ be32 0 := by
      simp [frameBytes]
    rw [hfn]
    have h1 : recv ⟨[be32 v ++ be32 0]⟩ 8 = (be32 v ++ be32 0, ⟨[]⟩) :=
      recv_single_ge _ _ (by simp [be32])
    have hb0 : unbe32 (be32 0) = 0 := by decide
    have hlen8 : (be32 v ++ be32 0).length = 8 := by simp [be32]
    simp only [read_message, h1, hlen8, ne_eq, not_true_eq_false, if_false,
      header_take, header_drop, hb, hb0]
    have h2 : recv (⟨[]⟩ : Sock) 0 = ([], ⟨[]⟩) := rfl
    simp only [h2, recvLoop, List.length_nil, Nat.lt_irrefl, if_false]
    cases hmt : MessageType.ofValue v
    · rfl
    · cases hld : loads []
      · rfl
      · rfl
  · have hlt : (8 : Nat) < (frameBytes v (x :: xs)).length := by
      rw [frame_length, List.length_cons]; omega
    have h1 : recv ⟨[frameBytes v (x :: xs)]⟩ 8 =
        ((frameBytes v (x :: xs)).take 8, ⟨[(frameBytes v (x :: xs)).drop 8]⟩) :=
      recv_single_lt _ _ hlt
    simp only [read_message, h1, frame_take, frame_drop]
    have hlen8 : (be32 v ++ be32 (x :: xs).length).length = 8 := by simp [be32]
    simp only [hlen8, ne_eq, not_true_eq_false, if_false, header_take, header_drop, hb, hbl]
    have h2 : recv ⟨[x :: xs]⟩ (x :: xs).length = (x :: xs, ⟨[]⟩) :=
      recv_single_ge _ _ (le_refl _)
    simp only [h2, recvLoop, Nat.lt_irrefl, if_false]
    cases hmt : MessageType.ofValue v
    · rfl
    · cases hld : loads (x :: xs)
      · rfl
      · rfl

/-- If the stream is closed and the collected data is still short of the
declared length, the `while len(data) < length` loop of `read_message` never
terminates: `recv` keeps returning the empty byte string and no progress is
made, at any fuel. -/
lemma recvLoop_closed (L : Nat) :
    ∀ (fuel : Nat) (data : List Byte), data.length < L →
      recvLoop fuel ⟨[]⟩ data L = none := by
  intro fuel
  induction fuel with
  | zero => intro data _; rfl
  | succ n ih =>
    intro data h
    simp only [recvLoop, if_pos h]
    have hr : recv ⟨[]⟩ (L - data.length) = ([], ⟨[]⟩) := rfl
    simp only [hr, List.append_nil]
    exact ih data h

/-- What stops the receive loop of `NetworkManager.handle_client`.
`src/shared/network.py` imports only `create_message` from
`shared.protocol` (line 6), so the call `read_message(client)` in the loop
body refers to an unresolved name and raises `NameError` on the first
iteration; with the module as written no other stop cause is reachable on
this path. -/
inductive StopCause where
  | nameError
deriving DecidableEq

/-- Observable outcome of one `handle_client` run: the callback invocations
made (in order), why the loop ended, and whether the socket was closed (the
`finally: client.close()` block, which runs on every exit path). -/
structure RunResult (α : Type) where
  dispatched : List (MessageType × α)
  cause : StopCause
  closed : Bool
deriving DecidableEq

/-- `NetworkManager.handle_client` from `src/shared/network.py`, as written.
`self.running` is `true` when the handler thread starts, so the loop body
runs; its first statement evaluates `read_message(client)`, but `network.py`
never imports `read_message` (only `create_message`), so the lookup raises
`NameError` before a single byte is read from the socket.  The `except`
around the whole loop catches and logs it, and the `finally` closes the
socket.  Consequently the run neither reads the stream nor invokes any
registered callback, whatever the stream holds and whatever callbacks are
registered — both parameters are dead.  (`handle_incoming` has the same
body and the same failure.) -/
def handle_client (_cbs : MessageType → Option (α → Bool)) (_s : Sock) :
    RunResult α :=
  ⟨[], .nameError, true⟩

/-- C1: for every kind in the closed message-kind set and every payload whose
serialization round-trips through the (external, text-based) serializer and
fits the 32-bit length field, decoding the bytes produced by `create_message`
with `read_message` yields exactly the original `(kind, payload)` pair: the
encoder emits `header ++ serialized payload` and the decoder, fed those bytes
on the stream, returns `(kind, payload)` and consumes the whole frame. -/
theorem wire_round_trip (dumps : α → List Byte) (loads : List Byte → Option α)
    (msg_type : MessageType) (data : α) (fuel : Nat)
    (hloss : loads (dumps data) = some data)
    (hlen : (dumps data).length < 2 ^ 32) :
    create_message dumps msg_type data =
        some (frameBytes msg_type.value (dumps data)) ∧
      read_message loads (fuel + 1) ⟨[frameBytes msg_type.value (dumps data)]⟩ =
        some (.msg msg_type data, ⟨[]⟩) := by
  constructor
  · simp only [create_message, if_pos hlen]
  · rw [read_frame loads _ _ fuel (MessageType.value_lt _) hlen,
      MessageType.ofValue_value, hloss]

/-- Witness for `wire_round_trip`: a concrete mouse-event frame with payload
bytes `[65]`, using the identity serialization. -/
theorem wire_round_trip_witness :
    create_message (fun bs => bs) MessageType.mouse_event [65] =
        some (frameBytes 2 [65]) ∧
      read_message idLoads 1 ⟨[frameBytes 2 [65]]⟩ =
        some (.msg .mouse_event [65], ⟨[]⟩) :=
  wire_round_trip (fun bs => bs) idLoads .mouse_event [65] 0 rfl (by decide)

/-- C2 (code bug): a frame whose 8-byte header declares `payload_length = L`
but whose stream delivers only `p` with `p.length < L` before closing makes
`read_message` loop forever: the `while len(data) < length` loop calls
`recv`, which returns the empty byte string on a closed socket, so no
progress is ever made — at every fuel the run is still unfinished, i.e. the
code never returns a `TruncatedMessage` error and never terminates. -/
theorem truncated_payload_loops_forever (loads : List Byte → Option α)
    (v L : Nat) (p : List Byte) (fuel : Nat)
    (hv : v < 2 ^ 32) (hL : L < 2 ^ 32) (hp : p.length < L) :
    read_message loads fuel ⟨[be32 v ++ be32 L, p]⟩ = none := by
  have hb : unbe32 (be32 v) = v := unbe32_be32 v hv
  have hbL : unbe32 (be32 L) = L := unbe32_be32 L hL
  have h1 : recv ⟨[be32 v ++ be32 L, p]⟩ 8 = (be32 v ++ be32 L, ⟨[p]⟩) := by
    simp [recv, be32]
  have hlen8 : (be32 v ++ be32 L).length = 8 := by simp [be32]
  simp only [read_message, h1, hlen8, ne_eq, not_true_eq_false, if_false,
    header_take, header_drop, hb, hbL]
  have h2 : recv ⟨[p]⟩ L = (p, ⟨[]⟩) := recv_single_ge _ _ (le_of_lt hp)
  simp only [h2, recvLoop_closed L fuel p hp]

/-- Witness for `truncated_payload_loops_forever`: header declares a 5-byte
payload, the stream delivers 2 bytes and closes; the read never finishes. -/
theorem truncated_payload_witness :
    read_message idLoads 1000 ⟨[be32 2 ++ be32 5, [10, 20]]⟩ = none :=
  truncated_payload_loops_forever idLoads 2 5 [10, 20] 1000
    (by decide) (by decide) (by decide)

/-- C3 (code bug): `read_message` does a single `sock.recv(8)` for the header
and treats any result shorter than 8 bytes as end of stream.  If that single
read returns a short chunk `c` (`0 < c.length < 8`) while the transport is
still open — further chunks `rest` remain queued — the function returns
`(None, None)` (EndOfStream) immediately, discarding the partial header and
never retrying. -/
theorem short_header_read_returns_eos (loads : List Byte → Option α)
    (c : List Byte) (rest : List (List Byte)) (fuel : Nat)
    (h0 : 0 < c.length) (h8 : c.length < 8) :
    read_message loads fuel ⟨c :: rest⟩ = some (.eos, ⟨rest⟩) := by
  have h1 : recv ⟨c :: rest⟩ 8 = (c, ⟨rest⟩) := by
    simp [recv, le_of_lt h8]
  simp only [read_message, h1, ne_eq]
  rw [if_pos (by omega)]

/-- Witness for `short_header_read_returns_eos`: the first `recv` yields only
4 of the 8 header bytes although a further 9-byte chunk is still queued. -/
theorem short_header_read_witness :
    read_message idLoads 5 ⟨[[0, 0, 0, 2], [0, 0, 0, 1, 65]]⟩ =
      some (.eos, ⟨[[0, 0, 0, 1, 65]]⟩) :=
  short_header_read_returns_eos idLoads [0, 0, 0, 2] [[0, 0, 0, 1, 65]] 5
    (by decide) (by decide)

lemma MessageType.ofValue_eq_none (v : Nat) (hout : ¬(1 ≤ v ∧ v ≤ 8)) :
    MessageType.ofValue v = none := by
  simp only [MessageType.ofValue]
  split_ifs <;> first
  | rfl
  | omega

/-- C4 (code bug): `read_message` itself, given a frame whose header carries
a numeric kind `v` outside `{1..8}`, does fail with the `ValueError` raised
by `MessageType(v)` — the UnknownMessageKind failure (second conjunct).  But
the program's receive loop never executes that decode: `network.py` never
imports `read_message`, so `handle_client` raises `NameError` on its first
iteration, before reading a single byte.  The connection is closed because
of the `NameError`, not the unknown kind, and no message — this one
included — is ever decoded or dispatched (first conjunct). -/
theorem unknown_kind_never_reaches_decode (loads : List Byte → Option α)
    (cbs : MessageType → Option (α → Bool)) (v : Nat) (p : List Byte) (fuel : Nat)
    (hv : v < 2 ^ 32) (hout : ¬(1 ≤ v ∧ v ≤ 8)) (hp : p.length < 2 ^ 32) :
    handle_client cbs ⟨[frameBytes v p]⟩ = ⟨[], .nameError, true⟩ ∧
      read_message loads (fuel + 1) ⟨[frameBytes v p]⟩ =
        some (.err (.unknownKind v), ⟨[]⟩) := by
  refine ⟨rfl, ?_⟩
  rw [read_frame loads v p fuel hv hp, MessageType.ofValue_eq_none v hout]

/-- Witness for `unknown_kind_never_reaches_decode`: kind value 9 with
payload `[65]`. -/
theorem unknown_kind_witness :
    handle_client (fun _ => some (fun _ => true)) ⟨[frameBytes 9 [65]]⟩ =
        (⟨[], .nameError, true⟩ : RunResult (List Byte)) ∧
      read_message idLoads 3 ⟨[frameBytes 9 [65]]⟩ =
        some (.err (.unknownKind 9), ⟨[]⟩) :=
  unknown_kind_never_reaches_decode idLoads (fun _ => some (fun _ => true))
    9 [65] 2 (by decide) (by decide) (by decide)

/-- C5 (code bug): no handler is ever invoked by the receive loop.  The
stream below carries one complete, well-formed frame of kind `t` that
`read_message` would decode to `(t, d)` (second conjunct), and a callback is
registered for `t`; yet `handle_client` dispatches nothing and closes the
connection, because the loop raises `NameError` at the unresolved name
`read_message` before any decode or dispatch (first conjunct).  The claimed
synchronous handler invocation — and with it any per-handler catch-log-
continue behaviour — therefore never happens.  (Independently, the
`try/except` wraps the whole `while` loop, so even with the import repaired
a raising handler would terminate the loop and close the connection.) -/
theorem handler_never_invoked (loads : List Byte → Option α)
    (cbs : MessageType → Option (α → Bool)) (t : MessageType) (p : List Byte)
    (d : α) (fuel : Nat) (hp : p.length < 2 ^ 32) (hl : loads p = some d)
    (hcb : (cbs t).isSome = true) :
    handle_client cbs ⟨[frameBytes t.value p]⟩ = ⟨[], .nameError, true⟩ ∧
      read_message loads (fuel + 1) ⟨[frameBytes t.value p]⟩ =
        some (.msg t d, ⟨[]⟩) := by
  refine ⟨rfl, ?_⟩
  rw [read_frame loads _ p fuel (MessageType.value_lt t) hp,
    MessageType.ofValue_value, hl]

/-- Witness for `handler_never_invoked`: one mouse-event frame with a
handler registered for every kind. -/
theorem handler_never_invoked_witness :
    handle_client (fun _ => some (fun _ => true)) ⟨[frameBytes 2 [65]]⟩ =
        (⟨[], .nameError, true⟩ : RunResult (List Byte)) ∧
      read_message idLoads 3 ⟨[frameBytes 2 [65]]⟩ =
        some (.msg .mouse_event [65], ⟨[]⟩) :=
  handler_never_invoked idLoads (fun _ => some (fun _ => true)) .mouse_event
    [65] [65] 2 (by decide) rfl rfl

/-- One entry of the diff list built by `CompressionManager.compress_diff`
(`src/server/compression.py`): a positional change `(i, new_data[i])` or the
`('tail', new_data[len(old_data):])` entry. -/
inductive DiffEntry where
  | byte (pos : Nat) (val : Byte)
  | tail (bytes : List Byte)
deriving DecidableEq

/-- The value returned by `compress_diff`: zlib-compressed full data when
`old_data` is `None` (not a Python list), otherwise the diff list. -/
inductive DiffResult where
  | full (bytes : List Byte)
  | changes (entries : List DiffEntry)
deriving DecidableEq

/-- The positional entries the `for i in range(min_len)` loop of
`compress_diff` collects for indices below `n`. -/
def diffEntries (o new : List Byte) (n : Nat) : List DiffEntry :=
  (List.range n).filterMap (fun i =>
    if o.getD i 0 ≠ new.getD i 0 then some (DiffEntry.byte i (new.getD i 0))
    else none)

/-- `CompressionManager.compress_diff(old_data, new_data)` from
`src/server/compression.py`; the external `zlib.compress` is the parameter
`comp`. -/
def compress_diff (comp : List Byte → List Byte) (old_data : Option (List Byte))
    (new_data : List Byte) : DiffResult :=
  match old_data with
  | none => .full (comp new_data)
  | some o =>
    let diff := diffEntries o new_data (min o.length new_data.length)
    .changes (if o.length < new_data.length
      then diff ++ [DiffEntry.tail (new_data.drop o.length)]
      else diff)

/-- One iteration of the `for change in diff` loop of `decompress_diff`. -/
def applyChange (acc : List Byte) (c : DiffEntry) : List Byte :=
  match c with
  | .byte pos val => if pos < acc.length then acc.set pos val else acc ++ [val]
  | .tail bs => acc ++ bs

/-- `CompressionManager.decompress_diff(old_data, diff)` from
`src/server/compression.py`; the external `zlib.decompress` is the parameter
`decomp`.  `bytearray(old_data) if old_data else bytearray()` seeds the
reconstruction with `old_data`'s bytes (empty when `old_data` is `None` or
empty). -/
def decompress_diff (decomp : List Byte → List Byte) (old_data : Option (List Byte))
    (diff : DiffResult) : List Byte :=
  match diff with
  | .full bs => decomp bs
  | .changes cs => cs.foldl applyChange (old_data.getD [])

/-- Applying the positional entries for indices below `n` to `o` replaces its
first `n` bytes with `new`'s. -/
lemma diffEntries_foldl (o new : List Byte) :
    ∀ n, n ≤ o.length → n ≤ new.length →
      (diffEntries o new n).foldl applyChange o = new.take n ++ o.drop n := by
  intro n
  induction n with
  | zero => intro _ _; simp [diffEntries]
  | succ n ih =>
    intro hno hnn
    have hlo : n < o.length := by omega
    have hln : n < new.length := by omega
    have hstep : diffEntries o new (n + 1) = diffEntries o new n ++
        (if o.getD n 0 ≠ new.getD n 0 then [DiffEntry.byte n (new.getD n 0)] else []) := by
      simp only [diffEntries, List.range_succ, List.filterMap_append]
      congr 1
      rcases Decidable.em (o.getD n 0 ≠ new.getD n 0) with h | h
      · rw [if_pos h, List.filterMap_cons_some (by rw [if_pos h]), List.filterMap_nil]
      · rw [if_neg h, List.filterMap_cons_none (by rw [if_neg h]), List.filterMap_nil]
    rw [hstep, List.foldl_append, ih (by omega) (by omega)]
    have hgd_o : o.getD n 0 = o[n] := List.getD_eq_getElem o 0 hlo
    have hgd_n : new.getD n 0 = new[n] := List.getD_eq_getElem new 0 hln
    have htake : new.take (n + 1) = new.take n ++ [new[n]] := by
      rw [List.take_succ, List.getElem?_eq_getElem hln]
      rfl
    have hdrop : o.drop n = o[n] :: o.drop (n + 1) :=
      List.drop_eq_getElem_cons hlo
    by_cases hEq : o.getD n 0 = new.getD n 0
    · rw [if_neg (not_not_intro hEq)]
      simp only [List.foldl_nil]
      rw [htake, hdrop, List.append_assoc, List.singleton_append]
      have hEq2 : o[n] = new[n] := by
        rw [← hgd_o, ← hgd_n]
        exact hEq
      rw [hEq2]
    · rw [if_pos hEq]
      simp only [List.foldl_cons, List.foldl_nil, applyChange]
      have hlt2 : n < (new.take n ++ o.drop n).length := by
        simp only [List.length_append, List.length_take, List.length_drop]
        omega
      rw [if_pos hlt2]
      have hltake : (new.take n).length = n := by
        simp only [List.length_take]
        omega
      rw [List.set_append_right _ _ (le_of_eq hltake), hltake,
        Nat.sub_self, hdrop, List.set_cons_zero, htake, List.append_assoc,
        List.singleton_append, hgd_n]

/-- C6: the diff round-trip.  Uniformly,
`decompress_diff old (compress_diff old new) = new ++ (old').drop new.length`
where `old'` is `old`'s bytes (empty when `old` is absent): when
`len(new) ≥ len(old)` — including `old` absent or empty — the dropped suffix
is empty and the reconstruction is exactly `new` (first conjunct); when
`len(new) < len(old)` it is `new` followed by `old`'s trailing bytes beyond
`new`'s length, the documented edge case (second conjunct).  The external
zlib pair used for the `old = None` path is assumed lossless. -/
theorem diff_round_trip (comp decomp : List Byte → List Byte)
    (old_data : Option (List Byte)) (new_data : List Byte)
    (hzlib : ∀ bs, decomp (comp bs) = bs) :
    ((old_data.getD []).length ≤ new_data.length →
        decompress_diff decomp old_data (compress_diff comp old_data new_data) =
          new_data) ∧
      decompress_diff decomp old_data (compress_diff comp old_data new_data) =
        new_data ++ (old_data.getD []).drop new_data.length := by
  have main : decompress_diff decomp old_data (compress_diff comp old_data new_data) =
      new_data ++ (old_data.getD []).drop new_data.length := by
    match old_data with
    | none => simp [compress_diff, decompress_diff, hzlib]
    | some o =>
      simp only [compress_diff, decompress_diff, Option.getD_some]
      rcases Nat.lt_trichotomy o.length new_data.length with hlt | heq | hgt
      · rw [if_pos hlt]
        have hmin : min o.length new_data.length = o.length := by omega
        rw [hmin, List.foldl_append,
          diffEntries_foldl o new_data o.length (le_refl _) (le_of_lt hlt)]
        simp only [List.foldl_cons, List.foldl_nil, applyChange, List.drop_length,
          List.append_nil, List.take_append_drop]
        rw [List.drop_eq_nil_of_le (le_of_lt hlt), List.append_nil]
      · rw [if_neg (by omega)]
        have hmin : min o.length new_data.length = o.length := by omega
        rw [hmin, diffEntries_foldl o new_data o.length (le_refl _) (by omega),
          List.drop_length, List.append_nil, heq, List.take_length,
          List.drop_eq_nil_of_le (by omega), List.append_nil]
      · rw [if_neg (by omega)]
        have hmin : min o.length new_data.length = new_data.length := by omega
        rw [hmin, diffEntries_foldl o new_data new_data.length (by omega) (le_refl _),
          List.take_length]
  exact ⟨fun h => by rw [main, List.drop_eq_nil_of_le h, List.append_nil], main⟩

/-- Witness for `diff_round_trip`: with `old = [1,2,3]` and the shorter
`new = [9,8]` the reconstruction is `[9,8] ++ [3]`; with `old = [1]` and the
longer `new = [5,6]` it is exactly `[5,6]`. -/
theorem diff_round_trip_witness :
    decompress_diff id (some [1, 2, 3]) (compress_diff id (some [1, 2, 3]) [9, 8]) =
        [9, 8] ++ [3] ∧
      decompress_diff id (some [1]) (compress_diff id (some [1]) [5, 6]) = [5, 6] :=
  ⟨(diff_round_trip id id (some [1, 2, 3]) [9, 8] (fun _ => rfl)).2,
    (diff_round_trip id id (some [1]) [5, 6] (fun _ => rfl)).1 (by decide)⟩

/-- The mutable state of `ScreenCapturer` (`src/server/screen_capturer.py`)
that `capture` reads and writes.  `time.time()` values are modelled as exact
rationals; `frame_interval` is the `1.0 / fps` computed in `__init__` /
`set_fps`. -/
structure ScreenCapturer where
  last_capture : ℚ
  frame_interval : ℚ
  previous_frame : Option (List Byte)
deriving DecidableEq

/-- `ScreenCapturer.capture(diff)` from `src/server/screen_capturer.py`. The
ambient effects are explicit parameters: `now` is the value `time.time()`
returns at this tick, and `grab` the JPEG bytes produced by
`ImageGrab.grab(...)` + `img.save(...)` (`none` models an exception inside
the `try` block, caught and turned into `return None`; note `last_capture`
has already been updated by then).  The external `zlib.compress` is `comp`.
Returns the updated state and the optional compressed frame. -/
def capture (comp : List Byte → List Byte) (st : ScreenCapturer) (now : ℚ)
    (grab : Option (List Byte)) (diff : Bool) :
    ScreenCapturer × Option (List Byte) :=
  if now - st.last_capture < st.frame_interval then (st, none)
  else
    let st1 := { st with last_capture := now }
    match grab with
    | none => (st1, none)
    | some frame_data =>
      match st.previous_frame with
      | some prev =>
        if diff ∧ prev ≠ [] ∧ prev.length = frame_data.length ∧ prev = frame_data then
          (st1, none)
        else ({ st1 with previous_frame := some frame_data }, some (comp frame_data))
      | none => ({ st1 with previous_frame := some frame_data }, some (comp frame_data))

/-- A tick that passes the rate gate stamps `last_capture := now` and leaves
`frame_interval` unchanged, on every branch (grab failure, identical-frame
skip, or a produced frame). -/
lemma capture_stamps_time (comp : List Byte → List Byte) (st : ScreenCapturer)
    (now : ℚ) (grab : Option (List Byte)) (diff : Bool)
    (hfirst : st.frame_interval ≤ now - st.last_capture) :
    (capture comp st now grab diff).1.last_capture = now ∧
      (capture comp st now grab diff).1.frame_interval = st.frame_interval := by
  rw [capture, if_neg (not_lt.mpr hfirst)]
  rcases grab with _ | fd
  · exact ⟨rfl, rfl⟩
  · rcases hpf : st.previous_frame with _ | prev
    · exact ⟨rfl, rfl⟩
    · dsimp only
      by_cases hid : diff = true ∧ prev ≠ [] ∧ prev.length = fd.length ∧ prev = fd
      · rw [if_pos hid]
        exact ⟨rfl, rfl⟩
      · rw [if_neg hid]
        exact ⟨rfl, rfl⟩

/-- C7 (amended): the rate gate is measured from `last_capture`, the time of
the last tick that *passed the gate* — which is updated even when that tick's
grab failed or its frame was skipped as identical — not from the last
successful capture.  A tick within `frame_interval` of `last_capture` yields
`None` and leaves the state untouched; hence of two consecutive ticks less
than `1/fps` apart where the first passes the gate, the second always yields
"no frame". -/
theorem capture_rate_gate (comp : List Byte → List Byte) (st : ScreenCapturer)
    (now now2 : ℚ) (grab grab2 : Option (List Byte)) (diff diff2 : Bool)
    (hfirst : st.frame_interval ≤ now - st.last_capture)
    (hsecond : now2 - now < st.frame_interval) :
    capture comp (capture comp st now grab diff).1 now2 grab2 diff2 =
      ((capture comp st now grab diff).1, none) := by
  obtain ⟨hl, hi⟩ := capture_stamps_time comp st now grab diff hfirst
  rw [capture, hl, hi, if_pos hsecond]

/-- Witness for `capture_rate_gate`: `fps = 1`, a first tick at `t = 1` from
the initial state, then a second tick half a second later. -/
theorem capture_rate_gate_witness :
    capture id (capture id ⟨0, 1, none⟩ 1 (some [7]) false).1 (3/2) (some [7]) false =
      ((capture id ⟨0, 1, none⟩ 1 (some [7]) false).1, none) :=
  capture_rate_gate id ⟨0, 1, none⟩ 1 (3/2) (some [7]) (some [7]) false false
    (by norm_num) (by norm_num)

/-- The capturer state right after a successful capture at time 1 with
`fps = 1`, starting from the `__init__` state (`last_capture = 0`). -/
def capAfterFirst : ScreenCapturer := (capture id ⟨0, 1, none⟩ 1 (some [7]) false).1

/-- C7 (counterexample): two consecutive ticks issued `8/10 < 1/fps` seconds
apart where the *second* nevertheless produces a frame: after a successful
capture at `t = 1`, a tick at `t = 3/2` is gated (no frame, state unchanged)
but does not restart the interval, so a tick at `t = 23/10` — only `8/10`
seconds later — passes the gate and produces a frame.  This refutes the
claim that the second of any two ticks less than `1/fps` apart returns
"no frame". -/
theorem capture_rate_cex :
    capture id capAfterFirst (3/2) (some [7]) false = (capAfterFirst, none) ∧
      (capture id capAfterFirst (23/10) (some [8]) false).2 = some [8] ∧
      (23/10 : ℚ) - 3/2 < 1 ∧ capAfterFirst.frame_interval = 1 := by
  refine ⟨?_, ?_, by norm_num, by norm_num [capAfterFirst, capture]⟩
  · norm_num [capAfterFirst, capture]
  · norm_num [capAfterFirst, capture]

/-- A mouse position: a `pygame` `(x, y)` tuple. -/
abbrev Pos := Int × Int

/-- The mutable state of `InputSender` (`src/client/input_sender.py`): the
`last_pos` slot, `None` initially. -/
structure InputSender where
  last_pos : Option Pos
deriving DecidableEq

/-- The mouse-event payload dict built by `InputSender.send_mouse_event`
(`sub_action` is only present when passed). -/
structure InputMouseMsg where
  action : String
  pos : Option Pos
  button : String
  sub_action : Option String
deriving DecidableEq

/-- Result of one `InputSender.send_mouse_event` call: the state afterwards,
the local `event_data` dict the body built (`none` on the suppressed early
return), the message actually handed to `self.network.send_message`, and
whether the call raised.  `wrote` is always `none` in the module as written:
`input_sender.py` imports `pyautogui`, `win32api`, `win32con` and `time`
but never `MessageType`, so evaluating `MessageType.MOUSE_EVENT` in the
final statement raises `NameError` before `send_message` is called. -/
structure InputSendOutcome where
  state : InputSender
  built : Option InputMouseMsg
  wrote : Option InputMouseMsg
  raised : Bool
deriving DecidableEq

/-- `InputSender.send_mouse_event(action, pos, button, sub_action)` from
`src/client/input_sender.py`, as written.  The duplicate-move check returns
early (nothing built, nothing sent, no error).  Otherwise the body updates
`self.last_pos` (`pos if pos else self.last_pos`, the truthiness choice on
the optional tuple) and builds `event_data` — and then raises `NameError`
at `MessageType.MOUSE_EVENT`, which is an unresolved name in this module,
so nothing is ever handed to `network.send_message`. -/
def InputSender.send_mouse_event (st : InputSender) (action : String)
    (pos : Option Pos) (button : String) (sub_action : Option String) :
    InputSendOutcome :=
  if action = "move" ∧ pos = st.last_pos then ⟨st, none, none, false⟩
  else
    let newLast := match pos with
      | some p => some p
      | none => st.last_pos
    ⟨⟨newLast⟩, some ⟨action, newLast, button, sub_action⟩, none, true⟩

/-- The mouse-event payload dict built by
`RemoteDesktopClient.send_mouse_event` (`src/client/client_main.py`), which
adds an `amount` key for scroll events. -/
structure ClientMouseMsg where
  action : String
  pos : Pos
  button : String
  sub_action : Option String
  amount : Option String
deriving DecidableEq

/-- `RemoteDesktopClient.send_mouse_event(action, pos, button, sub_action)`
from `src/client/client_main.py`: stateless, builds the payload and always
hands it to `network.send_message` — there is no suppression on this path. -/
def RemoteDesktopClient.send_mouse_event (action : String) (pos : Pos)
    (button : String) (sub_action : Option String) : ClientMouseMsg :=
  { action := action, pos := pos, button := button, sub_action := sub_action,
    amount := if action = "scroll" then some button else none }

/-- A local `pygame` input event, as dispatched by the
`for event in pygame.event.get()` loop of
`RemoteDesktopClient.handle_user_input`. -/
inductive PyEvent where
  | mouseMotion (pos : Pos)
  | mouseButtonDown (button : Nat) (pos : Pos)
  | mouseButtonUp (button : Nat) (pos : Pos)
  | keyDown (key : String)
  | keyUp (key : String)
deriving DecidableEq

/-- One payload written to the wire by the client for one local event. -/
inductive WireEvent where
  | mouse (m : ClientMouseMsg)
  | keyboard (key : String) (action : String)
deriving DecidableEq

/-- `'left' if event.button == 1 else 'right' if event.button == 3 else
'middle'`. -/
def buttonName (b : Nat) : String :=
  if b = 1 then "left" else if b = 3 then "right" else "middle"

/-- The dispatch of one `pygame` event in
`RemoteDesktopClient.handle_user_input`: every event produces a send via
`RemoteDesktopClient.send_mouse_event` / `send_keyboard_event`. -/
def RemoteDesktopClient.processEvent : PyEvent → WireEvent
  | .mouseMotion pos =>
    .mouse (RemoteDesktopClient.send_mouse_event "move" pos "left" none)
  | .mouseButtonDown b pos =>
    .mouse (RemoteDesktopClient.send_mouse_event "click" pos (buttonName b) (some "down"))
  | .mouseButtonUp b pos =>
    .mouse (RemoteDesktopClient.send_mouse_event "click" pos (buttonName b) (some "up"))
  | .keyDown k => .keyboard k "down"
  | .keyUp k => .keyboard k "up"

/-- The wire messages the client's input loop produces for a list of local
events, in order. -/
def RemoteDesktopClient.processEvents (evs : List PyEvent) : List WireEvent :=
  evs.map RemoteDesktopClient.processEvent

/-- C8 (counterexample): two identical consecutive mouse-move events at
`(10, 20)` fed to the client's input loop each produce a wire message — the
second identical move is *not* suppressed, because the client main loop uses
its own stateless `RemoteDesktopClient.send_mouse_event`, not the
`InputSender` class (whose duplicate-move check is the only suppression in
the code base).  This refutes the claim that the client writes nothing for
a move identical to the previous mouse event. -/
theorem duplicate_move_sent_cex :
    RemoteDesktopClient.processEvents
        [.mouseMotion (10, 20), .mouseMotion (10, 20)] =
      [.mouse ⟨"move", (10, 20), "left", none, none⟩,
        .mouse ⟨"move", (10, 20), "left", none, none⟩] := by
  decide

/-- C8 (amended): `InputSender.send_mouse_event` returns without raising
exactly when the event is a move whose position equals the stored previous
position (the duplicate-move early return), and on every call — suppressed
or not — it hands nothing to `network.send_message`, since every
non-suppressed call raises `NameError` at the unresolved name
`MessageType` before the send (first conjunct).  The path actually wired to
`pygame` events, `RemoteDesktopClient.send_mouse_event` in
`client_main.py`, suppresses nothing: every local input event, duplicate
moves included, produces a wire message (second conjunct). -/
theorem mouse_send_paths :
    (∀ (st : InputSender) (action : String) (pos : Option Pos)
        (button : String) (sub_action : Option String),
      ((InputSender.send_mouse_event st action pos button sub_action).raised =
          false ↔ action = "move" ∧ pos = st.last_pos) ∧
        (InputSender.send_mouse_event st action pos button sub_action).wrote =
          none) ∧
      ∀ evs : List PyEvent,
        (RemoteDesktopClient.processEvents evs).length = evs.length := by
  constructor
  · intro st action pos button sub_action
    by_cases h : action = "move" ∧ pos = st.last_pos
    · rw [InputSender.send_mouse_event.eq_def, if_pos h]
      exact ⟨by simpa using h, rfl⟩
    · rw [InputSender.send_mouse_event.eq_def, if_neg h]
      exact ⟨by simpa using h, rfl⟩
  · intro evs
    simp [RemoteDesktopClient.processEvents]

/-- Witness for `mouse_send_paths`: a move at the stored position returns
silently; a click writes nothing either; a batch of three local events on
the client main loop path produces three wire messages. -/
theorem mouse_send_paths_witness :
    (InputSender.send_mouse_event ⟨some (10, 20)⟩ "move" (some (10, 20))
        "left" none).raised = false ∧
      (InputSender.send_mouse_event ⟨some (10, 20)⟩ "click" (some (10, 20))
        "left" (some "down")).wrote = none ∧
      (RemoteDesktopClient.processEvents
        [.mouseMotion (1, 2), .mouseMotion (1, 2), .keyDown "a"]).length = 3 :=
  ⟨((mouse_send_paths.1 ⟨some (10, 20)⟩ "move" (some (10, 20))
      "left" none).1).mpr ⟨rfl, rfl⟩,
    (mouse_send_paths.1 ⟨some (10, 20)⟩ "click" (some (10, 20)) "left"
      (some "down")).2,
    mouse_send_paths.2 [.mouseMotion (1, 2), .mouseMotion (1, 2), .keyDown "a"]⟩

/-- The mutable state of `NetworkManager` (`src/shared/network.py`) that
`send_message` and `stop` read and write: the `running` flag and the socket
handle (`none` when `connect`/`start_server` was never called or `stop`
already cleared it).  A live socket is an opaque numeric handle. -/
structure NetworkManager where
  running : Bool
  sock : Option Nat
deriving DecidableEq

/-- `NetworkManager.stop()` from `src/shared/network.py`: a no-op when
already stopped; otherwise clears `running`, closes the socket and sets the
handle to `None`. -/
def NetworkManager.stop (st : NetworkManager) : NetworkManager :=
  if st.running then { running := false, sock := none } else st

/-- Observable effect of one `NetworkManager.send_message` call: the state
afterwards, the bytes written and to which handle (`none` = nothing
written), and whether an exception escaped to the caller. -/
structure SendOutcome where
  state : NetworkManager
  wrote : Option (Nat × List Byte)
  raised : Bool
deriving DecidableEq

/-- `NetworkManager.send_message(msg_type, data, sock=None)` from
`src/shared/network.py`.  `bytes` stands for the result of
`create_message(msg_type, data)`; `sendOk` tells whether `sendall` on the
target socket succeeds (`false` = raises, caught by the `except`, which
logs and calls `self.stop()`). -/
def NetworkManager.send_message (st : NetworkManager) (bytes : List Byte)
    (sock : Option Nat) (sendOk : Bool) : SendOutcome :=
  match sock with
  | some target =>
    if sendOk then ⟨st, some (target, bytes), false⟩ else ⟨st.stop, none, false⟩
  | none =>
    match st.sock with
    | some target =>
      if sendOk then ⟨st, some (target, bytes), false⟩ else ⟨st.stop, none, false⟩
    | none => ⟨st, none, false⟩

/-- C10: `send_message` with no explicit target on a manager whose socket
handle is absent — never connected, or `stop()` already cleared it — is a
silent no-op: the state is unchanged, no bytes are written, and no exception
or error reaches the caller (first conjunct).  The second conjunct records
that `stop()` on a running manager indeed leaves the handle `none`, so sends
after `stop()` fall into this case. -/
theorem send_without_socket_is_noop (st : NetworkManager) (bytes : List Byte)
    (sendOk : Bool) (h : st.sock = none) :
    NetworkManager.send_message st bytes none sendOk = ⟨st, none, false⟩ ∧
      ∀ st2 : NetworkManager, st2.running = true →
        (NetworkManager.stop st2).sock = none := by
  constructor
  · rw [NetworkManager.send_message, h]
  · intro st2 h2
    rw [NetworkManager.stop, if_pos h2]

/-- Witness for `send_without_socket_is_noop`: a never-connected manager and
a running manager that is stopped. -/
theorem send_without_socket_witness :
    NetworkManager.send_message ⟨false, none⟩ [1, 2, 3] none true =
        ⟨⟨false, none⟩, none, false⟩ ∧
      (NetworkManager.stop ⟨true, some 5⟩).sock = none :=
  ⟨(send_without_socket_is_noop ⟨false, none⟩ [1, 2, 3] true rfl).1,
    (send_without_socket_is_noop ⟨false, none⟩ [1, 2, 3] true rfl).2 ⟨true, some 5⟩ rfl⟩

end RemoteDesktop
